import Mathlib

/-!
# Verification of the `vkeyes` stereo VR renderer (`src/renderer/mod.rs`)

Shallow embedding of the renderer core: the 4x4 matrix math (cgmath), the
fixed clip-correction constant `CLIP`, per-eye projection setup and device /
queue selection in `Renderer::new`, and the per-frame `render` loop modelled
as a function from an explicit Renderer state and an environment of outcomes
for each fallible graphics / VR call to an effect trace (recorded render-pass
commands, command-buffer execution, compositor submissions) plus the updated
state.

Machine floats (`f32`) are embedded as exact rationals `ℚ`; trigonometric
functions used by cgmath's Euler-angle conversion are an abstract parameter
(`Trig`), since no claim depends on their values.  Rust panics (`unwrap`) are
modelled by an `Option` layer (`none` = panic); Rust `Result` by `Except`.
-/

/-! ## Matrices -/

/-- cgmath `Matrix4<f32>` with exact rational entries; `Mat4 r c` is the entry
at row `r`, column `c` of the mathematical matrix. -/
abbrev Mat4 : Type := Matrix (Fin 4) (Fin 4) ℚ

/-- openvr `HmdMatrix34` / `[[f32; 4]; 3]`: a row-major 3x4 pose matrix. -/
abbrev Mat34 : Type := Matrix (Fin 3) (Fin 4) ℚ

/-- openvr `HmdMatrix44` / `[[f32; 4]; 4]` as the raw nested array returned by
`System::projection_matrix`: `a i j` is `a[i][j]`. -/
abbrev Mat44Raw : Type := Fin 4 → Fin 4 → ℚ

/-- cgmath's `Matrix4::new` takes its sixteen arguments in column-major order
(`c0r0, c0r1, ..., c3r3`): the first four arguments are the first column. -/
def Matrix4_new (c0r0 c0r1 c0r2 c0r3 c1r0 c1r1 c1r2 c1r3
    c2r0 c2r1 c2r2 c2r3 c3r0 c3r1 c3r2 c3r3 : ℚ) : Mat4 :=
  (Matrix.of ![![c0r0, c0r1, c0r2, c0r3],
               ![c1r0, c1r1, c1r2, c1r3],
               ![c2r0, c2r1, c2r2, c2r3],
               ![c3r0, c3r1, c3r2, c3r3]]).transpose

/-- cgmath `impl From<[[S; 4]; 4]> for Matrix4`: the outer array index is the
column, so the mathematical entry at row `r`, column `c` is `a[c][r]`. -/
def cgFrom44 (a : Mat44Raw) : Mat4 :=
  Matrix.of fun r c => a c r

/-- Modelled from the spec: `openvr_vulkan::mat4` (the `openvr_vulkan` module
is not part of the given sources).  Per §4.1 of the spec it converts the VR
runtime's row-major 3x4 pose matrix into a standard 4x4 homogeneous matrix,
i.e. it appends the projective row `(0, 0, 0, 1)`. -/
def mat4 (p : Mat34) : Mat4 :=
  Matrix.of ![p 0, p 1, p 2, ![0, 0, 0, 1]]

/-! ### cgmath determinant / inverse (`Transform::inverse_transform`)

cgmath computes the 4x4 inverse by cofactor expansion: determinant, adjugate,
and division by the determinant, returning `None` when the determinant is
zero.  We embed that computation literally (3x3 cofactor determinants). -/

/-- Determinant of a 3x3 matrix given entrywise (first row `a b c`, ...). -/
def det3 (a b c d e f g h i : ℚ) : ℚ :=
  a * (e * i - f * h) - b * (d * i - f * g) + c * (d * h - e * g)

/-- The three indices of `Fin 4` other than the given one, in increasing
order. -/
def others : Fin 4 → Fin 4 × Fin 4 × Fin 4 :=
  ![(1, 2, 3), (0, 2, 3), (0, 1, 3), (0, 1, 2)]

/-- 3x3 minor of a 4x4 matrix obtained by deleting row `r` and column `c`. -/
def minor (m : Mat4) (r c : Fin 4) : ℚ :=
  let rs := others r
  let cs := others c
  det3 (m rs.1 cs.1) (m rs.1 cs.2.1) (m rs.1 cs.2.2)
       (m rs.2.1 cs.1) (m rs.2.1 cs.2.1) (m rs.2.1 cs.2.2)
       (m rs.2.2 cs.1) (m rs.2.2 cs.2.1) (m rs.2.2 cs.2.2)

/-- Determinant of a 4x4 matrix by cofactor expansion along the first row. -/
def det4 (m : Mat4) : ℚ :=
  m 0 0 * minor m 0 0 - m 0 1 * minor m 0 1 + m 0 2 * minor m 0 2 - m 0 3 * minor m 0 3

/-- Cofactor sign `(-1)^(r+c)`, tabulated. -/
def sign4 : Fin 4 → Fin 4 → ℚ :=
  ![![1, -1, 1, -1], ![-1, 1, -1, 1], ![1, -1, 1, -1], ![-1, 1, -1, 1]]

/-- Classical adjugate (transposed cofactor matrix) of a 4x4 matrix. -/
def adj4 (m : Mat4) : Mat4 :=
  Matrix.of fun i j => sign4 i j * minor m j i

/-- cgmath `SquareMatrix::invert` / `Transform::inverse_transform` for
`Matrix4`: `None` when the determinant is zero, otherwise the adjugate scaled
by the inverse determinant. -/
def inverse_transform (m : Mat4) : Option Mat4 :=
  if det4 m = 0 then none else some ((det4 m)⁻¹ • adj4 m)

/-! ## The clip-correction constant (`CLIP`, mod.rs lines 47-52) -/

/-- `CLIP`: translates OpenGL projection conventions to Vulkan.  Source:
`Matrix4::new(1,0,0,0, 0,-1,0,0, 0,0,0.5,0, 0,0,0.5,1)` (column-major). -/
def CLIP : Mat4 :=
  Matrix4_new 1 0 0 0
              0 (-1) 0 0
              0 0 (1/2) 0
              0 0 (1/2) 1

/-! ## Euler-angle rotation (cgmath `From<Euler<Rad<f32>>> for Matrix4`)

The renderer builds the per-eye gaze rotation with
`Matrix4::from(Euler { x: Rad(pitch), y: Rad(yaw), z: Rad(0.0) })`.  cgmath
converts an `Euler` to a `Matrix3` through sines and cosines of the three
angles and then embeds it homogeneously.  `f32` sine and cosine are embedded
as an abstract pair of functions `ℚ → ℚ`; no claim depends on their values. -/

/-- Abstract sine / cosine, standing in for the `f32` trigonometric
functions used by cgmath. -/
structure Trig where
  cos : ℚ → ℚ
  sin : ℚ → ℚ

/-- cgmath's Euler-to-matrix conversion (column-major `Matrix3::new` entries,
embedded into `Matrix4` with a homogeneous fourth row and column). -/
def eulerMat4 (t : Trig) (x y z : ℚ) : Mat4 :=
  let sx := t.sin x; let cx := t.cos x
  let sy := t.sin y; let cy := t.cos y
  let sz := t.sin z; let cz := t.cos z
  (Matrix.of ![![cy * cz, cx * sz + sx * sy * cz, sx * sz - cx * sy * cz, 0],
               ![-cy * sz, cx * cz - sx * sy * sz, sx * cz + cx * sy * sz, 0],
               ![sy, -sx * cy, cx * cy, 0],
               ![0, 0, 0, 1]]).transpose

/-! ## Data model of the `Renderer` -/

/-- cgmath `Vector2<f32>`: one eye's gaze angles (`x` = pitch, `y` = yaw). -/
structure Vec2 where
  x : ℚ
  y : ℚ

/-- `openvr::Eye`. -/
inductive EyeSide where
  | left
  | right
deriving DecidableEq

/-- Modelled from the spec: the asset collaborator's `Model` interface
(`renderer/model.rs` is not part of the given sources).  Per §6 of the spec a
model exposes `loaded() -> bool`, a vertex buffer handle, an index buffer
handle and a descriptor-set handle; `render` reads exactly these. -/
structure Model where
  loaded : Bool
  vertices : ℕ
  indices : ℕ
  set : ℕ
deriving DecidableEq

/-- Modelled from the spec: the per-eye render target (`renderer/eye.rs` is
not part of the given sources).  Per §4.3 of the spec an `Eye` stores the
precomputed projection matrix passed to `Eye::new` and owns a framebuffer and
a compositor-submittable texture; `render` reads exactly these three. -/
structure Eye where
  projection : Mat4
  frame_buffer : ℕ
  texture : ℕ
deriving DecidableEq

/-- A vulkano `Queue`: the queue family it was created from (as an index into
the physical device's family list) and the priority it was requested with. -/
structure QueueRef where
  family : ℕ
  priority : ℚ
deriving DecidableEq

/-- The in-flight frame fence (`previous_frame_end`): either the
already-complete sentinel `sync::now(device)` or the fence-and-flush future
of a previously submitted frame (tagged with an opaque identity). -/
inductive FenceTok where
  | now
  | flushed (id : ℕ)
deriving DecidableEq

/-- The `Renderer` struct (mod.rs lines 34-44).  GPU/VR handles that `render`
and the claims treat as opaque (`instance`, `device`, `pipeline`,
`compositor`) are identities `ℕ`; `inst` stands for the `instance` field
(`instance` is reserved in Lean). -/
structure Renderer where
  inst : ℕ
  device : ℕ
  queue : QueueRef
  load_queue : QueueRef
  pipeline : ℕ
  eyes : Eye × Eye
  compositor : ℕ
  previous_frame_end : Option FenceTok
deriving DecidableEq

/-! ## Errors (mod.rs lines 320-343) -/

/-- vulkano `FlushError`, collapsed to what `render` distinguishes:
`OutOfDate` versus every other variant. -/
inductive FlushOutcome where
  | ok
  | outOfDate
  | err
deriving DecidableEq

/-- `RendererCreationError` (one variant per fallible initialization step). -/
inductive RendererCreationError where
  | noDevices
  | noQueue
  | layersListError
  | instanceCreationError
  | deviceCreationError
  | oomError
  | renderPassCreationError
  | graphicsPipelineCreationError
  | eyeCreationError
deriving DecidableEq

/-- `RenderError` (one variant per fallible per-frame step). -/
inductive RenderError where
  | oomError
  | beginRenderPassError
  | drawIndexedError
  | autoCommandBufferBuilderContextError
  | buildError
  | commandBufferExecError
  | compositorError
  | flushError
deriving DecidableEq

/-! ## Observable effects of one `render` call -/

/-- vulkano `ClearValue`: the clear values passed to `begin_render_pass`. -/
inductive ClearValue where
  | color (r g b a : ℚ)
  | depth (d : ℚ)
deriving DecidableEq

/-- The clear values of both render passes (mod.rs lines 261-262, 277-278):
mid-gray color and depth `1.0`. -/
def clearVals : List ClearValue :=
  [ClearValue.color (1/2) (1/2) (1/2) 1, ClearValue.depth 1]

/-- One observable effect of a `render` call, in the order the corresponding
API call is made: command-buffer recording (`beginPass` / `draw` / `endPass`),
handing the built buffer to the graphics queue (`execute`,
`then_execute`), and the compositor handoffs (`submit`). -/
inductive Eff where
  | beginPass (frame_buffer : ℕ) (clear : List ClearValue)
  | draw (pipeline vertices indices set : ℕ) (push_constant : Mat4)
  | endPass
  | execute (queue : QueueRef)
  | submit (side : EyeSide) (texture : ℕ) (pose : Mat34)
deriving DecidableEq

/-- Result of a `render` call: `Ok(())` or `Err(RenderError)` from the Rust
signature, paired with the post-call `Renderer` state; the `Ok` case also
carries the effect trace of the completed frame. -/
inductive RenderOutcome where
  | ok (st : Renderer) (trace : List Eff)
  | err (e : RenderError) (st : Renderer)
deriving DecidableEq

/-- The post-call state of either outcome. -/
def RenderOutcome.state : RenderOutcome → Renderer
  | .ok st _ => st
  | .err _ st => st

/-- Environment of one `render` call: for each fallible external call, the
outcome the graphics / VR runtime would give it.  `drawOk n` is the outcome
of the `n`-th `draw_indexed` recorded in this call (counting across both
passes); `flushId` is the identity of the fence produced by a successful
`then_signal_fence_and_flush`. -/
structure RenderEnv where
  newBuilderOk : Bool
  beginPassOk : Bool × Bool
  drawOk : ℕ → Bool
  endPassOk : Bool × Bool
  buildOk : Bool
  executeOk : Bool
  submitOk : Bool × Bool
  flush : FlushOutcome
  flushId : ℕ

/-! ## The per-frame loop (`Renderer::render`, mod.rs lines 243-316) -/

/-- The draw loop over the scene (mod.rs lines 264-272 and 280-288): models
not `loaded()` are skipped silently; for a loaded model one `draw_indexed`
is recorded with the shared pipeline, the model's buffers and descriptor set,
and push constant `pv * world`.  `c` threads the per-call draw counter used
to index `drawOk`; a failing `draw_indexed` propagates via `?`. -/
def drawLoop (pipeline : ℕ) (pv : Mat4) (scene : List (Model × Mat4))
    (drawOk : ℕ → Bool) (c : ℕ) : Except RenderError (List Eff × ℕ) :=
  match scene with
  | [] => .ok ([], c)
  | (model, matrix) :: rest =>
    if model.loaded then
      if drawOk c then
        match drawLoop pipeline pv rest drawOk (c + 1) with
        | .ok (effs, c') =>
          .ok (Eff.draw pipeline model.vertices model.indices model.set (pv * matrix) :: effs, c')
        | .error e => .error e
      else .error .drawIndexedError
    else drawLoop pipeline pv rest drawOk c

/-- The effect trace of a fully successful frame: left render pass (begin,
scene draws, end), right render pass likewise, command-buffer execution on
the graphics queue, then the two compositor submissions (left then right),
each tagged with the current head pose. -/
def fullTrace (st : Renderer) (pose : Mat34) (l r : List Eff) : List Eff :=
  Eff.beginPass st.eyes.1.frame_buffer clearVals :: l ++
  Eff.endPass :: Eff.beginPass st.eyes.2.frame_buffer clearVals :: r ++
  Eff.endPass :: Eff.execute st.queue ::
  Eff.submit EyeSide.left st.eyes.1.texture pose ::
  Eff.submit EyeSide.right st.eyes.2.texture pose :: []

/-- `Renderer::render` (mod.rs lines 243-316), step for step:
`previous_frame_end` unwrap (panic = `none` when the field is `None`),
per-eye view-projection matrices (`inverse_transform().unwrap()` panic when
the pose is singular), command-buffer recording with `?`-propagation,
`take().unwrap()` of the fence before `then_execute`, compositor submissions,
and the final fence-and-flush match.  Note that every error after the
`take()` (line 293) leaves `previous_frame_end = None`. -/
def render (t : Trig) (env : RenderEnv) (st : Renderer) (hmd_pose : Mat34)
    (eye_rotation : Vec2 × Vec2) (scene : List (Model × Mat4)) : Option RenderOutcome :=
  match st.previous_frame_end with
  | none => none
  | some _prev =>
  match inverse_transform (mat4 hmd_pose) with
  | none => none
  | some pose_inv =>
  let left_pv := st.eyes.1.projection
    * eulerMat4 t eye_rotation.1.x eye_rotation.1.y 0 * pose_inv
  let right_pv := st.eyes.2.projection
    * eulerMat4 t eye_rotation.2.x eye_rotation.2.y 0 * pose_inv
  if env.newBuilderOk then
    if env.beginPassOk.1 then
      match drawLoop st.pipeline left_pv scene env.drawOk 0 with
      | .error e => some (.err e st)
      | .ok (leftDraws, c1) =>
        if env.endPassOk.1 then
          if env.beginPassOk.2 then
            match drawLoop st.pipeline right_pv scene env.drawOk c1 with
            | .error e => some (.err e st)
            | .ok (rightDraws, _c2) =>
              if env.endPassOk.2 then
                if env.buildOk then
                  -- `self.previous_frame_end.take().unwrap()` (line 293)
                  let st1 : Renderer := { st with previous_frame_end := none }
                  if env.executeOk then
                    if env.submitOk.1 then
                      if env.submitOk.2 then
                        let trace := fullTrace st hmd_pose leftDraws rightDraws
                        match env.flush with
                        | .ok =>
                          some (.ok { st1 with
                            previous_frame_end := some (.flushed env.flushId) } trace)
                        | .outOfDate =>
                          some (.ok { st1 with
                            previous_frame_end := some .now } trace)
                        | .err => some (.err .flushError st1)
                      else some (.err .compositorError st1)
                    else some (.err .compositorError st1)
                  else some (.err .commandBufferExecError st1)
                else some (.err .buildError st)
              else some (.err .autoCommandBufferBuilderContextError st)
          else some (.err .beginRenderPassError st)
        else some (.err .autoCommandBufferBuilderContextError st)
    else some (.err .beginRenderPassError st)
  else some (.err .oomError st)

/-! ## Initialization (`Renderer::new`, mod.rs lines 55-241) -/

/-- A vulkano `QueueFamily`, reduced to the two capability flags `new`
queries. -/
structure QueueFamily where
  supports_graphics : Bool
  explicitly_supports_transfers : Bool
deriving DecidableEq

/-- A vulkano `PhysicalDevice`: its raw pointer (`as_ptr`, used to match the
device openvr reports) and its queue families in enumeration order. -/
structure PhysDevice where
  ptr : ℕ
  queue_families : List QueueFamily
deriving DecidableEq

/-- The openvr `System` queries `new` makes, as a record of pure values:
the recommended render-target size, the raw pointer of the GPU backing the
HMD (`vulkan_output_device`, `None` when the runtime cannot report one),
and the per-eye intrinsics. -/
structure VRSystem where
  recommended_render_target_size : ℕ × ℕ
  vulkan_output_device : Option ℕ
  projection_matrix : EyeSide → ℚ → ℚ → Mat44Raw
  eye_to_head_transform : EyeSide → Mat34

/-- Environment of one `Renderer::new` call: the enumerated physical devices
and, for each fallible creation step, whether the runtime lets it succeed. -/
structure InitEnv where
  devices : List PhysDevice
  layersListOk : Bool
  instanceOk : Bool
  deviceOk : Bool
  shadersOk : Bool
  renderPassOk : Bool
  pipelineOk : Bool
  eyeLeftOk : Bool
  eyeRightOk : Bool

/-- Physical-device selection (mod.rs lines 131-137):
`system.vulkan_output_device(..)` and-then matched against the enumerated
devices by raw pointer, or-else the fallback `enumerate().skip(preferred
device index, default 0).next()`; `None` here becomes `NoDevices`. -/
def selectPhysical (vro : Option ℕ) (devices : List PhysDevice)
    (preferred : Option ℕ) : Option PhysDevice :=
  match vro.bind (fun ptr => devices.find? (fun p => p.ptr == ptr)) with
  | some d => some d
  | none => (devices.drop (preferred.getD 0)).head?

/-- The per-eye projection matrix computed in `new` (mod.rs lines 216-221):
`CLIP * Matrix4::from(system.projection_matrix(eye, 0.1, 1000.1)).transpose()
* mat4(&system.eye_to_head_transform(eye)).inverse_transform().unwrap()`.
`none` models the `unwrap` panic on a singular eye-to-head transform. -/
def eyeProjection (sys : VRSystem) (side : EyeSide) : Option Mat4 :=
  (inverse_transform (mat4 (sys.eye_to_head_transform side))).map
    (fun e2hInv =>
      CLIP * (cgFrom44 (sys.projection_matrix side (1/10) (10001/10))).transpose * e2hInv)

/-- `Renderer::new` (mod.rs lines 55-241).  Outer `Option` models panics
(shader-load `unwrap`, singular eye-to-head transform); `Except` is the Rust
`Result`.  Debug-mode printing has no observable effect and is omitted; the
`layers_list()?` call happens only when `debug` is set.  Opaque handles
(`instance`, device, pipeline, framebuffers, textures) get fixed identities;
the two eyes' targets are distinct resources (spec §3), hence distinct
identities. -/
def Renderer.new (sys : VRSystem) (env : InitEnv) (device : Option ℕ)
    (debug : Bool) : Option (Except RendererCreationError Renderer) :=
  if debug && !env.layersListOk then some (.error .layersListError) else
  if !env.instanceOk then some (.error .instanceCreationError) else
  match selectPhysical sys.vulkan_output_device env.devices device with
  | none => some (.error .noDevices)
  | some physical =>
  match physical.queue_families.findIdx? (fun q => q.supports_graphics) with
  | none => some (.error .noQueue)
  | some queue_family =>
  let load_queue_family :=
    (physical.queue_families.findIdx? (fun q => q.explicitly_supports_transfers)).getD
      queue_family
  -- `families = vec![(queue_family, 0.5), (load_queue_family, 0.2)]`;
  -- `Device::new` yields the requested queues in order.
  if !env.deviceOk then some (.error .deviceCreationError) else
  let queues : List QueueRef := [⟨queue_family, 1/2⟩, ⟨load_queue_family, 1/5⟩]
  match queues.head? with
  | none => some (.error .noQueue)
  | some queue =>
  match queues.tail.head? with
  | none => some (.error .noQueue)
  | some load_queue =>
  -- `Shader::load(..).unwrap()` twice: a failure is a panic.
  if !env.shadersOk then none else
  if !env.renderPassOk then some (.error .renderPassCreationError) else
  if !env.pipelineOk then some (.error .graphicsPipelineCreationError) else
  -- `proj_left` is evaluated in full (including its unwrap) before
  -- `proj_right`, then `Eye::new` left then right, each with `?`.
  match eyeProjection sys EyeSide.left with
  | none => none
  | some proj_left =>
  match eyeProjection sys EyeSide.right with
  | none => none
  | some proj_right =>
  if !env.eyeLeftOk then some (.error .eyeCreationError) else
  if !env.eyeRightOk then some (.error .eyeCreationError) else
  some (.ok
    { inst := 0
      device := 0
      queue := queue
      load_queue := load_queue
      pipeline := 0
      eyes := (⟨proj_left, 0, 0⟩, ⟨proj_right, 1, 1⟩)
      compositor := 0
      previous_frame_end := some FenceTok.now })

/-! ## Helper lemmas -/

/-- Number of scene entries whose model is loaded. -/
def countLoaded (scene : List (Model × Mat4)) : ℕ :=
  (scene.filter (fun e => e.1.loaded)).length

/-- The draws one eye's pass records on the success path: one `draw_indexed`
per loaded entry, in scene order, with the shared pipeline and push constant
`pv * world`. -/
def drawsFor (pipeline : ℕ) (pv : Mat4) (scene : List (Model × Mat4)) : List Eff :=
  (scene.filter (fun e => e.1.loaded)).map
    (fun e => Eff.draw pipeline e.1.vertices e.1.indices e.1.set (pv * e.2))

/-- All recording, execution and submission outcomes of a `render`
environment succeed (so the call reaches the final fence-and-flush). -/
def reachesFlush (env : RenderEnv) : Prop :=
  env.newBuilderOk = true ∧ env.beginPassOk.1 = true ∧ env.beginPassOk.2 = true ∧
  (∀ n, env.drawOk n = true) ∧ env.endPassOk.1 = true ∧ env.endPassOk.2 = true ∧
  env.buildOk = true ∧ env.executeOk = true ∧
  env.submitOk.1 = true ∧ env.submitOk.2 = true

theorem drawLoop_ok (pipeline : ℕ) (pv : Mat4) (scene : List (Model × Mat4))
    (drawOk : ℕ → Bool) (h : ∀ n, drawOk n = true) (c : ℕ) :
    drawLoop pipeline pv scene drawOk c =
      .ok (drawsFor pipeline pv scene, c + countLoaded scene) := by
  induction scene generalizing c with
  | nil => simp [drawLoop, drawsFor, countLoaded]
  | cons e rest ih =>
    obtain ⟨model, matrix⟩ := e
    by_cases hl : model.loaded
    · simp [drawLoop, hl, h c, ih (c + 1), drawsFor, countLoaded, List.filter_cons]
      omega
    · simp [drawLoop, hl, ih c, drawsFor, countLoaded, List.filter_cons]

/-- On a state with a live fence, an invertible head pose and an environment
whose recording / execution / submission steps all succeed, `render` reaches
the final fence-and-flush with the full frame trace; the three flush
outcomes then decide result and new fence exactly as mod.rs lines 302-313. -/
theorem render_reaches_flush (t : Trig) (env : RenderEnv) (st : Renderer)
    (pose : Mat34) (rot : Vec2 × Vec2) (scene : List (Model × Mat4))
    (f : FenceTok) (pinv : Mat4)
    (hf : st.previous_frame_end = some f)
    (hinv : inverse_transform (mat4 pose) = some pinv)
    (henv : reachesFlush env) :
    render t env st pose rot scene =
      some (match env.flush with
        | .ok => .ok { st with previous_frame_end := some (.flushed env.flushId) }
            (fullTrace st pose
              (drawsFor st.pipeline
                (st.eyes.1.projection * eulerMat4 t rot.1.x rot.1.y 0 * pinv) scene)
              (drawsFor st.pipeline
                (st.eyes.2.projection * eulerMat4 t rot.2.x rot.2.y 0 * pinv) scene))
        | .outOfDate => .ok { st with previous_frame_end := some .now }
            (fullTrace st pose
              (drawsFor st.pipeline
                (st.eyes.1.projection * eulerMat4 t rot.1.x rot.1.y 0 * pinv) scene)
              (drawsFor st.pipeline
                (st.eyes.2.projection * eulerMat4 t rot.2.x rot.2.y 0 * pinv) scene))
        | .err => .err .flushError { st with previous_frame_end := none }) := by
  obtain ⟨h1, h2, h3, h4, h5, h6, h7, h8, h9, h10⟩ := henv
  unfold render
  rw [hf, hinv]
  simp only [h1, h2, h3, h5, h6, h7, h8, h9, h10, if_true]
  simp only [drawLoop_ok _ _ scene env.drawOk h4]
  cases env.flush <;> rfl

set_option maxHeartbeats 1600000 in
theorem mul_adj4_of (a00 a01 a02 a03 a10 a11 a12 a13 a20 a21 a22 a23 a30 a31 a32 a33 : ℚ) :
    (Matrix.of ![![a00, a01, a02, a03], ![a10, a11, a12, a13],
                 ![a20, a21, a22, a23], ![a30, a31, a32, a33]] : Mat4) *
      adj4 (Matrix.of ![![a00, a01, a02, a03], ![a10, a11, a12, a13],
                 ![a20, a21, a22, a23], ![a30, a31, a32, a33]]) =
    det4 (Matrix.of ![![a00, a01, a02, a03], ![a10, a11, a12, a13],
                 ![a20, a21, a22, a23], ![a30, a31, a32, a33]]) • (1 : Mat4) := by
  ext i j
  fin_cases i <;> fin_cases j <;>
    (simp [Matrix.mul_apply, Fin.sum_univ_four, adj4, sign4, minor, det3, others, det4,
       Matrix.smul_apply, Matrix.one_apply, smul_eq_mul]
     ring)

set_option maxHeartbeats 1600000 in
theorem adj4_mul_of (a00 a01 a02 a03 a10 a11 a12 a13 a20 a21 a22 a23 a30 a31 a32 a33 : ℚ) :
    adj4 (Matrix.of ![![a00, a01, a02, a03], ![a10, a11, a12, a13],
                 ![a20, a21, a22, a23], ![a30, a31, a32, a33]]) *
      (Matrix.of ![![a00, a01, a02, a03], ![a10, a11, a12, a13],
                 ![a20, a21, a22, a23], ![a30, a31, a32, a33]] : Mat4) =
    det4 (Matrix.of ![![a00, a01, a02, a03], ![a10, a11, a12, a13],
                 ![a20, a21, a22, a23], ![a30, a31, a32, a33]]) • (1 : Mat4) := by
  ext i j
  fin_cases i <;> fin_cases j <;>
    (simp [Matrix.mul_apply, Fin.sum_univ_four, adj4, sign4, minor, det3, others, det4,
       Matrix.smul_apply, Matrix.one_apply, smul_eq_mul]
     ring)

theorem eta_fin_four (A : Mat4) :
    A = Matrix.of ![![A 0 0, A 0 1, A 0 2, A 0 3],
                    ![A 1 0, A 1 1, A 1 2, A 1 3],
                    ![A 2 0, A 2 1, A 2 2, A 2 3],
                    ![A 3 0, A 3 1, A 3 2, A 3 3]] := by
  ext i j
  fin_cases i <;> fin_cases j <;> rfl

theorem mul_adj4 (m : Mat4) : m * adj4 m = det4 m • (1 : Mat4) := by
  rw [eta_fin_four m]
  exact mul_adj4_of _ _ _ _ _ _ _ _ _ _ _ _ _ _ _ _

theorem adj4_mul (m : Mat4) : adj4 m * m = det4 m • (1 : Mat4) := by
  rw [eta_fin_four m]
  exact adj4_mul_of _ _ _ _ _ _ _ _ _ _ _ _ _ _ _ _

/-- The matrix cgmath's `inverse_transform` returns is a genuine two-sided
inverse. -/
theorem inverse_transform_inv {m v : Mat4} (h : inverse_transform m = some v) :
    m * v = 1 ∧ v * m = 1 := by
  unfold inverse_transform at h
  by_cases hdet : det4 m = 0
  · simp [hdet] at h
  · rw [if_neg hdet, Option.some.injEq] at h
    subst h
    constructor
    · rw [mul_smul_comm, mul_adj4, smul_smul, inv_mul_cancel₀ hdet, one_smul]
    · rw [smul_mul_assoc, adj4_mul, smul_smul, inv_mul_cancel₀ hdet, one_smul]

/-! ## Concrete inputs used by the witnesses -/

/-- A concrete trig oracle (no claim depends on its values). -/
def wTrig : Trig := ⟨fun _ => 1, fun _ => 0⟩

/-- The identity head pose / eye-to-head transform (3x4). -/
def idPose : Mat34 := Matrix.of ![![1, 0, 0, 0], ![0, 1, 0, 0], ![0, 0, 1, 0]]

/-- A loaded model. -/
def wModel : Model := ⟨true, 100, 101, 102⟩

/-- A two-entry scene: one loaded model and one still-loading model. -/
def wScene : List (Model × Mat4) := [(wModel, 1), (⟨false, 103, 104, 105⟩, 1)]

/-- A concrete renderer state with identity eye projections. -/
def wSt : Renderer :=
  ⟨0, 0, ⟨0, 1/2⟩, ⟨0, 1/5⟩, 5, (⟨1, 10, 20⟩, ⟨1, 11, 21⟩), 0, some FenceTok.now⟩

/-- Zero gaze angles for both eyes. -/
def wRot : Vec2 × Vec2 := (⟨0, 0⟩, ⟨0, 0⟩)

/-- An all-success render environment whose flush succeeds with fence 7. -/
def wEnv : RenderEnv :=
  ⟨true, (true, true), fun _ => true, (true, true), true, true, (true, true),
   FlushOutcome.ok, 7⟩

/-- `wEnv` with an out-of-date flush. -/
def wEnvOOD : RenderEnv := { wEnv with flush := FlushOutcome.outOfDate }

/-- `wEnv` with a non-out-of-date flush failure. -/
def wEnvFErr : RenderEnv := { wEnv with flush := FlushOutcome.err }

/-- `wEnv` with a failing `then_execute`. -/
def wEnvExecFail : RenderEnv := { wEnv with executeOk := false }

/-- The identity head pose is its own cgmath inverse. -/
theorem winv : inverse_transform (mat4 idPose) = some 1 := by
  have h1 : inverse_transform (mat4 idPose) =
      some ((det4 (mat4 idPose))⁻¹ • adj4 (mat4 idPose)) := by
    with_unfolding_all rfl
  have h2 : ((det4 (mat4 idPose))⁻¹ • adj4 (mat4 idPose) : Mat4) = 1 :=
    Matrix.ext (of_decide_eq_true (by with_unfolding_all rfl))
  rw [h1, h2]

/-- All outcomes in `wEnv`-based environments that share its recording
fields succeed. -/
theorem wEnv_reaches : reachesFlush wEnv :=
  ⟨rfl, rfl, rfl, fun _ => rfl, rfl, rfl, rfl, rfl, rfl, rfl⟩

/-- The outcome of the concrete `wEnv` frame. -/
def wOut : RenderOutcome :=
  .ok { wSt with previous_frame_end := some (.flushed wEnv.flushId) }
    (fullTrace wSt idPose
      (drawsFor wSt.pipeline
        (wSt.eyes.1.projection * eulerMat4 wTrig wRot.1.x wRot.1.y 0 * 1) wScene)
      (drawsFor wSt.pipeline
        (wSt.eyes.2.projection * eulerMat4 wTrig wRot.2.x wRot.2.y 0 * 1) wScene))

/-! ## Claims -/

/-- C8: the clip-correction constant equals, column-major, the matrix with
rows `[1,0,0,0] [0,-1,0,0] [0,0,0.5,0] [0,0,0.5,1]` (so as a mathematical
matrix its rows are `[1,0,0,0] [0,-1,0,0] [0,0,1/2,1/2] [0,0,0,1]`), and for
every point `(x,y,z,1)` it maps `y` to `-y` and `z` to `z/2 + 1/2` (taking
`z ∈ [-1,1]` to `[0,1]`), leaving `x` and the homogeneous coordinate
unchanged. -/
theorem clip_correction_matrix (x y z : ℚ) (h1 : -1 ≤ z) (h2 : z ≤ 1) :
    CLIP = Matrix.of ![![1, 0, 0, 0], ![0, -1, 0, 0],
                       ![0, 0, 1/2, 1/2], ![0, 0, 0, 1]] ∧
    CLIP.mulVec ![x, y, z, 1] = ![x, -y, (1/2) * z + 1/2, 1] ∧
    0 ≤ (1/2) * z + 1/2 ∧ (1/2) * z + 1/2 ≤ 1 := by
  refine ⟨Matrix.ext (of_decide_eq_true (by with_unfolding_all rfl)), ?_,
    by linarith, by linarith⟩
  funext i
  fin_cases i <;>
    simp [CLIP, Matrix4_new, Matrix.mulVec, Matrix.dotProduct, Fin.sum_univ_four,
          Matrix.transpose_apply, Matrix.cons_val_zero, Matrix.cons_val_one,
          Matrix.head_cons, Matrix.cons_val_two, Matrix.tail_cons, Matrix.cons_val_three,
          Matrix.vecHead, Matrix.vecTail]

/-- C8 witness at `(x, y, z) = (3, 5, 0)`. -/
theorem clip_correction_matrix_witness :
    CLIP = Matrix.of ![![1, 0, 0, 0], ![0, -1, 0, 0],
                       ![0, 0, 1/2, 1/2], ![0, 0, 0, 1]] ∧
    CLIP.mulVec ![3, 5, 0, 1] = ![3, -5, (1/2) * 0 + 1/2, 1] ∧
    0 ≤ (1/2) * (0 : ℚ) + 1/2 ∧ (1/2) * (0 : ℚ) + 1/2 ≤ 1 :=
  clip_correction_matrix 3 5 0 (by norm_num) (by norm_num)

/-- C1: on a frame that reaches a successful flush, the trace holds exactly
one indexed draw per loaded scene entry in each eye's pass, in scene order
(`drawsFor` maps the loaded entries in order), each with the shared pipeline
and push constant `view_projection * world`; unloaded entries are skipped,
and with no loaded entry the frame still completes with zero draws per eye
(`countLoaded scene = 0`). -/
theorem render_scene_draws (t : Trig) (env : RenderEnv) (st : Renderer)
    (pose : Mat34) (rot : Vec2 × Vec2) (scene : List (Model × Mat4))
    (f : FenceTok) (pinv : Mat4)
    (hf : st.previous_frame_end = some f)
    (hinv : inverse_transform (mat4 pose) = some pinv)
    (henv : reachesFlush env) (hflush : env.flush = FlushOutcome.ok) :
    render t env st pose rot scene =
      some (.ok { st with previous_frame_end := some (.flushed env.flushId) }
        (fullTrace st pose
          (drawsFor st.pipeline
            (st.eyes.1.projection * eulerMat4 t rot.1.x rot.1.y 0 * pinv) scene)
          (drawsFor st.pipeline
            (st.eyes.2.projection * eulerMat4 t rot.2.x rot.2.y 0 * pinv) scene))) ∧
    (drawsFor st.pipeline
      (st.eyes.1.projection * eulerMat4 t rot.1.x rot.1.y 0 * pinv) scene).length
      = countLoaded scene ∧
    (drawsFor st.pipeline
      (st.eyes.2.projection * eulerMat4 t rot.2.x rot.2.y 0 * pinv) scene).length
      = countLoaded scene := by
  refine ⟨?_, by simp [drawsFor, countLoaded], by simp [drawsFor, countLoaded]⟩
  rw [render_reaches_flush t env st pose rot scene f pinv hf hinv henv, hflush]

/-- C1 witness: a two-entry scene (one loaded, one not) yields one draw per
eye. -/
theorem render_scene_draws_witness :
    render wTrig wEnv wSt idPose wRot wScene =
      some (.ok { wSt with previous_frame_end := some (.flushed wEnv.flushId) }
        (fullTrace wSt idPose
          (drawsFor wSt.pipeline
            (wSt.eyes.1.projection * eulerMat4 wTrig wRot.1.x wRot.1.y 0 * 1) wScene)
          (drawsFor wSt.pipeline
            (wSt.eyes.2.projection * eulerMat4 wTrig wRot.2.x wRot.2.y 0 * 1) wScene))) ∧
    (drawsFor wSt.pipeline
      (wSt.eyes.1.projection * eulerMat4 wTrig wRot.1.x wRot.1.y 0 * 1) wScene).length
      = countLoaded wScene ∧
    (drawsFor wSt.pipeline
      (wSt.eyes.2.projection * eulerMat4 wTrig wRot.2.x wRot.2.y 0 * 1) wScene).length
      = countLoaded wScene :=
  render_scene_draws wTrig wEnv wSt idPose wRot wScene FenceTok.now 1 rfl winv
    wEnv_reaches rfl

/-- C2: the per-eye matrix used for a frame's draws is
`eye.projection * Rotation(pitch about x, yaw about y, 0 about z) *
inverse(head pose as 4x4)`, computed per eye from that eye's stored
projection and gaze vector; `pinv` really is the two-sided inverse of the
homogeneous head pose. -/
theorem render_view_projection (t : Trig) (env : RenderEnv) (st : Renderer)
    (pose : Mat34) (rot : Vec2 × Vec2) (scene : List (Model × Mat4))
    (f : FenceTok) (pinv : Mat4)
    (hf : st.previous_frame_end = some f)
    (hinv : inverse_transform (mat4 pose) = some pinv)
    (henv : reachesFlush env) (hflush : env.flush = FlushOutcome.ok) :
    render t env st pose rot scene =
      some (.ok { st with previous_frame_end := some (.flushed env.flushId) }
        (fullTrace st pose
          (drawsFor st.pipeline
            (st.eyes.1.projection * eulerMat4 t rot.1.x rot.1.y 0 * pinv) scene)
          (drawsFor st.pipeline
            (st.eyes.2.projection * eulerMat4 t rot.2.x rot.2.y 0 * pinv) scene))) ∧
    mat4 pose * pinv = 1 ∧ pinv * mat4 pose = 1 := by
  refine ⟨?_, inverse_transform_inv hinv⟩
  rw [render_reaches_flush t env st pose rot scene f pinv hf hinv henv, hflush]

/-- C2 witness at the identity head pose and zero gaze. -/
theorem render_view_projection_witness :
    render wTrig wEnv wSt idPose wRot wScene =
      some (.ok { wSt with previous_frame_end := some (.flushed wEnv.flushId) }
        (fullTrace wSt idPose
          (drawsFor wSt.pipeline
            (wSt.eyes.1.projection * eulerMat4 wTrig wRot.1.x wRot.1.y 0 * 1) wScene)
          (drawsFor wSt.pipeline
            (wSt.eyes.2.projection * eulerMat4 wTrig wRot.2.x wRot.2.y 0 * 1) wScene))) ∧
    mat4 idPose * 1 = 1 ∧ 1 * mat4 idPose = 1 :=
  render_view_projection wTrig wEnv wSt idPose wRot wScene FenceTok.now 1 rfl winv
    wEnv_reaches rfl

/-- C7: the frame's effects are ordered: the left eye's render pass is
recorded in full (begin, draws in scene order, end) before any of the right
eye's, then the command buffer goes to the graphics queue, then the two
compositor handoffs happen left before right, each tagged with the current
head pose. -/
theorem render_effect_order (t : Trig) (env : RenderEnv) (st : Renderer)
    (pose : Mat34) (rot : Vec2 × Vec2) (scene : List (Model × Mat4))
    (f : FenceTok) (pinv : Mat4)
    (hf : st.previous_frame_end = some f)
    (hinv : inverse_transform (mat4 pose) = some pinv)
    (henv : reachesFlush env) (hflush : env.flush = FlushOutcome.ok) :
    render t env st pose rot scene =
      some (.ok { st with previous_frame_end := some (.flushed env.flushId) }
        ((Eff.beginPass st.eyes.1.frame_buffer clearVals ::
            drawsFor st.pipeline
              (st.eyes.1.projection * eulerMat4 t rot.1.x rot.1.y 0 * pinv) scene
            ++ [Eff.endPass]) ++
         (Eff.beginPass st.eyes.2.frame_buffer clearVals ::
            drawsFor st.pipeline
              (st.eyes.2.projection * eulerMat4 t rot.2.x rot.2.y 0 * pinv) scene
            ++ [Eff.endPass]) ++
         [Eff.execute st.queue,
          Eff.submit EyeSide.left st.eyes.1.texture pose,
          Eff.submit EyeSide.right st.eyes.2.texture pose])) := by
  rw [render_reaches_flush t env st pose rot scene f pinv hf hinv henv, hflush]
  simp [fullTrace]

/-- C7 witness. -/
theorem render_effect_order_witness :
    render wTrig wEnv wSt idPose wRot wScene =
      some (.ok { wSt with previous_frame_end := some (.flushed wEnv.flushId) }
        ((Eff.beginPass wSt.eyes.1.frame_buffer clearVals ::
            drawsFor wSt.pipeline
              (wSt.eyes.1.projection * eulerMat4 wTrig wRot.1.x wRot.1.y 0 * 1) wScene
            ++ [Eff.endPass]) ++
         (Eff.beginPass wSt.eyes.2.frame_buffer clearVals ::
            drawsFor wSt.pipeline
              (wSt.eyes.2.projection * eulerMat4 wTrig wRot.2.x wRot.2.y 0 * 1) wScene
            ++ [Eff.endPass]) ++
         [Eff.execute wSt.queue,
          Eff.submit EyeSide.left wSt.eyes.1.texture idPose,
          Eff.submit EyeSide.right wSt.eyes.2.texture idPose])) :=
  render_effect_order wTrig wEnv wSt idPose wRot wScene FenceTok.now 1 rfl winv
    wEnv_reaches rfl

/-- C3: once a frame reaches the final fence-and-flush, an out-of-date flush
failure is swallowed — `render` returns `Ok` and the stored in-flight fence
is reset to the fresh already-complete sentinel; a successful flush stores
the new fence future; any other flush failure propagates as
`RenderError::FlushError`.  (The `eprintln` log line on the out-of-date path
is I/O and outside the model.) -/
theorem render_flush_handling (t : Trig) (env : RenderEnv) (st : Renderer)
    (pose : Mat34) (rot : Vec2 × Vec2) (scene : List (Model × Mat4))
    (f : FenceTok) (pinv : Mat4)
    (hf : st.previous_frame_end = some f)
    (hinv : inverse_transform (mat4 pose) = some pinv)
    (henv : reachesFlush env) :
    (env.flush = FlushOutcome.outOfDate →
      render t env st pose rot scene =
        some (.ok { st with previous_frame_end := some FenceTok.now }
          (fullTrace st pose
            (drawsFor st.pipeline
              (st.eyes.1.projection * eulerMat4 t rot.1.x rot.1.y 0 * pinv) scene)
            (drawsFor st.pipeline
              (st.eyes.2.projection * eulerMat4 t rot.2.x rot.2.y 0 * pinv) scene)))) ∧
    (env.flush = FlushOutcome.ok →
      render t env st pose rot scene =
        some (.ok { st with previous_frame_end := some (.flushed env.flushId) }
          (fullTrace st pose
            (drawsFor st.pipeline
              (st.eyes.1.projection * eulerMat4 t rot.1.x rot.1.y 0 * pinv) scene)
            (drawsFor st.pipeline
              (st.eyes.2.projection * eulerMat4 t rot.2.x rot.2.y 0 * pinv) scene)))) ∧
    (env.flush = FlushOutcome.err →
      render t env st pose rot scene =
        some (.err RenderError.flushError { st with previous_frame_end := none })) := by
  refine ⟨fun h => ?_, fun h => ?_, fun h => ?_⟩ <;>
    rw [render_reaches_flush t env st pose rot scene f pinv hf hinv henv, h]

/-- C3 witness: the three flush outcomes on a concrete frame. -/
theorem render_flush_handling_witness :
    render wTrig wEnvOOD wSt idPose wRot wScene =
      some (.ok { wSt with previous_frame_end := some FenceTok.now }
        (fullTrace wSt idPose
          (drawsFor wSt.pipeline
            (wSt.eyes.1.projection * eulerMat4 wTrig wRot.1.x wRot.1.y 0 * 1) wScene)
          (drawsFor wSt.pipeline
            (wSt.eyes.2.projection * eulerMat4 wTrig wRot.2.x wRot.2.y 0 * 1) wScene))) ∧
    render wTrig wEnv wSt idPose wRot wScene =
      some (.ok { wSt with previous_frame_end := some (.flushed wEnv.flushId) }
        (fullTrace wSt idPose
          (drawsFor wSt.pipeline
            (wSt.eyes.1.projection * eulerMat4 wTrig wRot.1.x wRot.1.y 0 * 1) wScene)
          (drawsFor wSt.pipeline
            (wSt.eyes.2.projection * eulerMat4 wTrig wRot.2.x wRot.2.y 0 * 1) wScene))) ∧
    render wTrig wEnvFErr wSt idPose wRot wScene =
      some (.err RenderError.flushError { wSt with previous_frame_end := none }) :=
  ⟨(render_flush_handling wTrig wEnvOOD wSt idPose wRot wScene FenceTok.now 1 rfl winv
      ⟨rfl, rfl, rfl, fun _ => rfl, rfl, rfl, rfl, rfl, rfl, rfl⟩).1 rfl,
   (render_flush_handling wTrig wEnv wSt idPose wRot wScene FenceTok.now 1 rfl winv
      wEnv_reaches).2.1 rfl,
   (render_flush_handling wTrig wEnvFErr wSt idPose wRot wScene FenceTok.now 1 rfl winv
      ⟨rfl, rfl, rfl, fun _ => rfl, rfl, rfl, rfl, rfl, rfl, rfl⟩).2.2 rfl⟩

/-- C10: whatever a `render` call returns, the only `Renderer` field it can
have changed is the stored in-flight fence: device, instance, queues,
pipeline, compositor and both eye targets (in particular both stored
projection matrices) are those of the pre-call state. -/
theorem render_mutates_only_fence (t : Trig) (env : RenderEnv) (st : Renderer)
    (pose : Mat34) (rot : Vec2 × Vec2) (scene : List (Model × Mat4))
    (out : RenderOutcome) (h : render t env st pose rot scene = some out) :
    out.state.inst = st.inst ∧ out.state.device = st.device ∧
    out.state.queue = st.queue ∧ out.state.load_queue = st.load_queue ∧
    out.state.pipeline = st.pipeline ∧ out.state.compositor = st.compositor ∧
    out.state.eyes = st.eyes ∧
    out.state.eyes.1.projection = st.eyes.1.projection ∧
    out.state.eyes.2.projection = st.eyes.2.projection := by
  simp only [render] at h
  repeat' split at h
  all_goals
    first
    | exact Option.noConfusion h
    | (injection h with h2
       subst h2
       exact ⟨rfl, rfl, rfl, rfl, rfl, rfl, rfl, rfl, rfl⟩)

/-- C10 witness: a completed concrete frame. -/
theorem render_mutates_only_fence_witness :
    wOut.state.inst = wSt.inst ∧ wOut.state.device = wSt.device ∧
    wOut.state.queue = wSt.queue ∧ wOut.state.load_queue = wSt.load_queue ∧
    wOut.state.pipeline = wSt.pipeline ∧ wOut.state.compositor = wSt.compositor ∧
    wOut.state.eyes = wSt.eyes ∧
    wOut.state.eyes.1.projection = wSt.eyes.1.projection ∧
    wOut.state.eyes.2.projection = wSt.eyes.2.projection :=
  render_mutates_only_fence wTrig wEnv wSt idPose wRot wScene wOut (by
    rw [render_reaches_flush wTrig wEnv wSt idPose wRot wScene FenceTok.now 1 rfl winv
      wEnv_reaches]
    rfl)

/-- `wEnv` with a failing left compositor submission. -/
def wEnvSubmitFail : RenderEnv := { wEnv with submitOk := (false, true) }

/-- C4 is refuted by the code: `render` `take()`s the fence at line 293, so
when `then_execute` or a compositor submission then fails, the `?` returns
`Err` with `previous_frame_end = None`, and the next `render` call panics at
the unconditional `unwrap` of line 244 (modelled as `none`). -/
theorem fence_lost_after_take :
    render wTrig wEnvExecFail wSt idPose wRot [] =
      some (.err RenderError.commandBufferExecError
        { wSt with previous_frame_end := none }) ∧
    render wTrig wEnvSubmitFail wSt idPose wRot [] =
      some (.err RenderError.compositorError
        { wSt with previous_frame_end := none }) ∧
    ({ wSt with previous_frame_end := none } : Renderer).previous_frame_end = none ∧
    render wTrig wEnv { wSt with previous_frame_end := none } idPose wRot [] = none :=
  ⟨by with_unfolding_all rfl, by with_unfolding_all rfl, rfl, rfl⟩

/-- Success inversion for `Renderer.new`: a returned `Renderer` comes from a
selected physical device, a found graphics family, and two successfully
computed eye projections, and its fields are exactly the ones `new` builds. -/
theorem new_ok_inv (sys : VRSystem) (env : InitEnv) (dev : Option ℕ)
    (debug : Bool) (r : Renderer)
    (h : Renderer.new sys env dev debug = some (Except.ok r)) :
    ∃ phys gi pL pR,
      selectPhysical sys.vulkan_output_device env.devices dev = some phys ∧
      phys.queue_families.findIdx? (fun q => q.supports_graphics) = some gi ∧
      eyeProjection sys EyeSide.left = some pL ∧
      eyeProjection sys EyeSide.right = some pR ∧
      r = { inst := 0, device := 0, queue := ⟨gi, 1/2⟩,
            load_queue := ⟨(phys.queue_families.findIdx?
                (fun q => q.explicitly_supports_transfers)).getD gi, 1/5⟩,
            pipeline := 0, eyes := (⟨pL, 0, 0⟩, ⟨pR, 1, 1⟩), compositor := 0,
            previous_frame_end := some FenceTok.now } := by
  simp only [Renderer.new, List.head?_cons, List.tail_cons] at h
  repeat' split at h
  all_goals simp only [Option.some.injEq, Except.ok.injEq, reduceCtorEq] at h
  subst h
  exact ⟨_, _, _, _, by assumption, by assumption, by assumption, by assumption, rfl⟩

/-- C5: a `Renderer` built by `new` stores, for each eye, the projection
`CLIP * projection_matrix(eye, 0.1, 1000.1)_transposed *
inverse(eye_to_head_transform(eye) as 4x4)`, where the inverse is a genuine
two-sided matrix inverse; these fields are fixed at construction (`render`
never changes them, see the frame-effect theorem). -/
theorem new_eye_projections (sys : VRSystem) (env : InitEnv) (dev : Option ℕ)
    (debug : Bool) (r : Renderer)
    (h : Renderer.new sys env dev debug = some (Except.ok r)) :
    ∃ invL invR,
      inverse_transform (mat4 (sys.eye_to_head_transform EyeSide.left)) = some invL ∧
      inverse_transform (mat4 (sys.eye_to_head_transform EyeSide.right)) = some invR ∧
      r.eyes.1.projection =
        CLIP * (cgFrom44 (sys.projection_matrix EyeSide.left (1/10) (10001/10))).transpose
          * invL ∧
      r.eyes.2.projection =
        CLIP * (cgFrom44 (sys.projection_matrix EyeSide.right (1/10) (10001/10))).transpose
          * invR ∧
      mat4 (sys.eye_to_head_transform EyeSide.left) * invL = 1 ∧
      invL * mat4 (sys.eye_to_head_transform EyeSide.left) = 1 ∧
      mat4 (sys.eye_to_head_transform EyeSide.right) * invR = 1 ∧
      invR * mat4 (sys.eye_to_head_transform EyeSide.right) = 1 := by
  obtain ⟨phys, gi, pL, pR, hsel, hgi, hL, hR, hr⟩ := new_ok_inv sys env dev debug r h
  simp only [eyeProjection] at hL hR
  obtain ⟨invL, hinvL, hfL⟩ := Option.map_eq_some'.mp hL
  obtain ⟨invR, hinvR, hfR⟩ := Option.map_eq_some'.mp hR
  refine ⟨invL, invR, hinvL, hinvR, ?_, ?_,
    (inverse_transform_inv hinvL).1, (inverse_transform_inv hinvL).2,
    (inverse_transform_inv hinvR).1, (inverse_transform_inv hinvR).2⟩
  · rw [hr]; exact hfL.symm
  · rw [hr]; exact hfR.symm

/-- A queue family supporting both graphics and explicit transfers. -/
def wFamily : QueueFamily := ⟨true, true⟩

/-- Physical devices for the initialization witnesses; `wDevice` is the one
whose raw pointer (42) the VR runtime reports. -/
def wDevice : PhysDevice := ⟨42, [wFamily]⟩

def wDev0 : PhysDevice := ⟨7, [wFamily]⟩

def wDev1 : PhysDevice := ⟨8, [wFamily]⟩

/-- A concrete VR system: reports device pointer 42, identity raw projection
matrices and identity eye-to-head transforms. -/
def wVR : VRSystem :=
  ⟨(1512, 1680), some 42,
   fun _ _ _ => fun i j => if i = j then 1 else 0,
   fun _ => idPose⟩

/-- `wVR` with no reported output device. -/
def wVRNoOut : VRSystem := { wVR with vulkan_output_device := none }

/-- An all-success initialization environment enumerating three devices,
the VR-reported one last. -/
def wInit : InitEnv := ⟨[wDev0, wDev1, wDevice], true, true, true, true, true, true, true, true⟩

/-- `wInit` with no devices enumerated. -/
def wInitNoDev : InitEnv := { wInit with devices := [] }

/-- The renderer `Renderer.new wVR wInit none false` constructs. -/
def wRenderer : Renderer :=
  { inst := 0, device := 0, queue := ⟨0, 1/2⟩, load_queue := ⟨0, 1/5⟩, pipeline := 0,
    eyes := (⟨CLIP * (cgFrom44 (wVR.projection_matrix EyeSide.left (1/10) (10001/10))).transpose
                * ((det4 (mat4 idPose))⁻¹ • adj4 (mat4 idPose)), 0, 0⟩,
             ⟨CLIP * (cgFrom44 (wVR.projection_matrix EyeSide.right (1/10) (10001/10))).transpose
                * ((det4 (mat4 idPose))⁻¹ • adj4 (mat4 idPose)), 1, 1⟩),
    compositor := 0, previous_frame_end := some FenceTok.now }

/-- C5 witness: concrete initialization with identity intrinsics. -/
theorem new_eye_projections_witness :
    ∃ invL invR,
      inverse_transform (mat4 (wVR.eye_to_head_transform EyeSide.left)) = some invL ∧
      inverse_transform (mat4 (wVR.eye_to_head_transform EyeSide.right)) = some invR ∧
      wRenderer.eyes.1.projection =
        CLIP * (cgFrom44 (wVR.projection_matrix EyeSide.left (1/10) (10001/10))).transpose
          * invL ∧
      wRenderer.eyes.2.projection =
        CLIP * (cgFrom44 (wVR.projection_matrix EyeSide.right (1/10) (10001/10))).transpose
          * invR ∧
      mat4 (wVR.eye_to_head_transform EyeSide.left) * invL = 1 ∧
      invL * mat4 (wVR.eye_to_head_transform EyeSide.left) = 1 ∧
      mat4 (wVR.eye_to_head_transform EyeSide.right) * invR = 1 ∧
      invR * mat4 (wVR.eye_to_head_transform EyeSide.right) = 1 :=
  new_eye_projections wVR wInit none false wRenderer (by with_unfolding_all rfl)

/-- C6: the physical device the VR runtime reports wins over
`preferred_device_index` whenever it matches an enumerated device; with no
match, the device at `preferred_device_index` (default 0) of the enumeration
is taken; if that selection yields nothing, `new` fails with `NoDevices`. -/
theorem device_selection (sys : VRSystem) (env : InitEnv) (pref : Option ℕ)
    (debug : Bool) :
    (∀ ptr d, sys.vulkan_output_device = some ptr →
      env.devices.find? (fun p => p.ptr == ptr) = some d →
      selectPhysical sys.vulkan_output_device env.devices pref = some d) ∧
    (sys.vulkan_output_device.bind
        (fun ptr => env.devices.find? (fun p => p.ptr == ptr)) = none →
      selectPhysical sys.vulkan_output_device env.devices pref =
        (env.devices.drop (pref.getD 0)).head?) ∧
    (selectPhysical sys.vulkan_output_device env.devices pref = none →
      env.layersListOk = true → env.instanceOk = true →
      Renderer.new sys env pref debug = some (.error RendererCreationError.noDevices)) := by
  refine ⟨fun ptr d h1 h2 => ?_, fun hnone => ?_, fun hsel hL hI => ?_⟩
  · simp [selectPhysical, h1, h2]
  · simp [selectPhysical, hnone]
  · simp [Renderer.new, hsel, hL, hI]

/-- C6 witness: pointer 42 matches the third enumerated device, so it is
selected despite `preferred_device_index = 3`; without a reported device the
fallback takes index 1; with no devices at all `new` fails with
`NoDevices`. -/
theorem device_selection_witness :
    selectPhysical wVR.vulkan_output_device wInit.devices (some 3) = some wDevice ∧
    selectPhysical wVRNoOut.vulkan_output_device wInit.devices (some 1) =
      (wInit.devices.drop ((some 1 : Option ℕ).getD 0)).head? ∧
    Renderer.new wVRNoOut wInitNoDev (some 5) false =
      some (.error RendererCreationError.noDevices) :=
  ⟨(device_selection wVR wInit (some 3) false).1 42 wDevice rfl (by with_unfolding_all rfl),
   (device_selection wVRNoOut wInit (some 1) false).2.1 rfl,
   (device_selection wVRNoOut wInitNoDev (some 5) false).2.2 (by with_unfolding_all rfl)
     rfl rfl⟩

/-- C9: on the selected device, no graphics-capable queue family means `new`
fails with `NoQueue`; otherwise the graphics queue comes from the first
graphics-capable family at priority 0.5 and the load queue from the first
family explicitly supporting transfers (falling back to the graphics family)
at priority 0.2, so the graphics queue has the higher priority. -/
theorem queue_selection (sys : VRSystem) (env : InitEnv) (dev : Option ℕ)
    (debug : Bool) (phys : PhysDevice)
    (hsel : selectPhysical sys.vulkan_output_device env.devices dev = some phys)
    (hL : env.layersListOk = true) (hI : env.instanceOk = true) :
    (phys.queue_families.findIdx? (fun q => q.supports_graphics) = none →
      Renderer.new sys env dev debug = some (.error RendererCreationError.noQueue)) ∧
    (∀ gi r, phys.queue_families.findIdx? (fun q => q.supports_graphics) = some gi →
      Renderer.new sys env dev debug = some (Except.ok r) →
      r.queue = ⟨gi, 1/2⟩ ∧
      r.load_queue = ⟨(phys.queue_families.findIdx?
          (fun q => q.explicitly_supports_transfers)).getD gi, 1/5⟩ ∧
      r.load_queue.priority < r.queue.priority) := by
  constructor
  · intro hng
    simp [Renderer.new, hsel, hng, hL, hI]
  · intro gi r hgi hnew
    obtain ⟨phys2, gi2, pL, pR, hsel2, hgi2, hL2, hR2, hr⟩ :=
      new_ok_inv sys env dev debug r hnew
    rw [hsel] at hsel2
    injection hsel2 with hp
    subst hp
    rw [hgi] at hgi2
    injection hgi2 with hg
    subst hg
    rw [hr]
    exact ⟨rfl, rfl, by norm_num⟩

/-- C9 witness: one graphics+transfer family gives queue family 0 at
priorities 0.5 and 0.2. -/
theorem queue_selection_witness :
    wRenderer.queue = ⟨0, 1/2⟩ ∧
    wRenderer.load_queue = ⟨(wDevice.queue_families.findIdx?
        (fun q => q.explicitly_supports_transfers)).getD 0, 1/5⟩ ∧
    wRenderer.load_queue.priority < wRenderer.queue.priority :=
  (queue_selection wVR wInit none false wDevice (by with_unfolding_all rfl) rfl rfl).2
    0 wRenderer (by with_unfolding_all rfl) (by with_unfolding_all rfl)
